import Mathlib

/-!
Verification of the poly-bridge cross-chain statistics engine
(`crosschainstats/crosschainstats.go`) against its specification.

The Go code is shallowly embedded: int64 / uint64 / big.Int values become
`Int` / `Nat`, the shopspring decimal values become exact integer fractions (`Dec`)
(shopspring division rounds the quotient to 16 decimal places; none of the
properties proved here depend on digits beyond that precision), and the
ORM/ledger queries — whose SQL lives outside the sources under
verification — are modelled from the spec as pure folds over explicit
ledger lists.  Fallible operations return `Option` / `Except`; a Go nil
dereference is modelled as the whole pass returning `none`.
-/

namespace PolyBridge

/-! ## basedef constants (basedef/define.go, basedef chain ids, mainnet build) -/

def POLY_CROSSCHAIN_ID : Nat := 0
def ETHEREUM_CROSSCHAIN_ID : Nat := 2
def BSC_CROSSCHAIN_ID : Nat := 6
def HECO_CROSSCHAIN_ID : Nat := 7
def O3_CROSSCHAIN_ID : Nat := 10
def OK_CROSSCHAIN_ID : Nat := 12
/-- Modelled from the spec: the matic chain id constant is referenced by
`specialBasic` but its defining basedef file is not among the sources; the
repository assigns it a value distinct from every other chain id, which is
all the proofs below use. -/
def MATIC_CROSSCHAIN_ID : Nat := 17
def PRICE_PRECISION : Int := 100000000

/-! ## Decimal arithmetic (shopspring/decimal, embedded as exact fractions).

A decimal value is an exact integer fraction; every value built by the
operations below has a positive denominator.  shopspring's `Div` rounds the
quotient to 16 decimal places — none of the properties proved here depend
on digits beyond that precision, so division is kept exact. -/

structure Dec where
  num : ℤ
  den : ℤ
  deriving DecidableEq

instance : IntCast Dec := ⟨fun n => ⟨n, 1⟩⟩

instance (n : Nat) : OfNat Dec n := ⟨⟨(n : ℤ), 1⟩⟩

instance : Add Dec := ⟨fun a b => ⟨a.num * b.den + b.num * a.den, a.den * b.den⟩⟩

instance : Mul Dec := ⟨fun a b => ⟨a.num * b.num, a.den * b.den⟩⟩

instance : Div Dec :=
  ⟨fun a b =>
    if b.num < 0 then ⟨-(a.num * b.den), a.den * -b.num⟩
    else ⟨a.num * b.den, a.den * b.num⟩⟩

/-- `decimal.Decimal.BigInt()`: the integer part of a decimal value,
truncated toward zero (the denominator is positive). -/
def decBigInt (q : Dec) : ℤ :=
  if q.num < 0 then -(-q.num / q.den) else q.num / q.den

/-- `decimal.Decimal.StringFixed(0)` followed by `decimal.NewFromString` in
`sendDing`: rounding to the nearest integer, halves away from zero. -/
def decRound (q : Dec) : ℤ :=
  if q.num < 0 then -((-q.num * 2 + q.den) / (2 * q.den))
  else (q.num * 2 + q.den) / (2 * q.den)

/-- `decimal.New(1, int32(precision))`: `10 ^ precision`. -/
def pow10q (n : Nat) : Dec := ⟨(10 : ℤ) ^ n, 1⟩

/-- `decimal.New(1, int32(precision)).BigInt()`: `10 ^ precision` as an integer. -/
def ipow10 (n : Nat) : ℤ := (10 : ℤ) ^ n

/-- `addDecimalBigInt` from the source: decimal addition of two integers is
exact, so this is plain integer addition. -/
def addDecimalBigInt (a b : ℤ) : ℤ := a + b

/-- `addDecimalInt64` from the source: decimal addition of two int64 values
followed by `IntPart()`, exact on integers. -/
def addDecimalInt64 (a b : ℤ) : ℤ := a + b

/-! ## Data model (poly-bridge/models, fields used by the stats engine) -/

structure TokenBasic where
  name : String
  chainId : Nat
  price : ℤ
  precision : Nat
  standard : Nat
  property : ℤ
  deriving DecidableEq

structure Token where
  chainId : Nat
  hash : String
  precision : Nat
  standard : Nat
  property : ℤ
  tokenBasicName : String
  tokenBasic : TokenBasic
  deriving DecidableEq

/-- One record of an append-only transfer stream (source or destination
transfers), with the columns the aggregation queries read. -/
structure TransferRecord where
  id : Nat
  chainId : Nat
  hash : String
  amount : ℤ
  basicName : String
  deriving DecidableEq

/-- One record of an append-only transaction stream (source, destination or
relay transactions), with the columns the chain-statistics queries read. -/
structure LedgerRecord where
  id : Nat
  chainId : Nat
  deriving DecidableEq

structure TokenStatistic where
  chainId : Nat
  hash : String
  inAmount : ℤ
  inAmountUsd : ℤ
  inAmountBtc : ℤ
  outAmount : ℤ
  outAmountUsd : ℤ
  outAmountBtc : ℤ
  inCounter : ℤ
  outCounter : ℤ
  lastInCheckId : Nat
  lastOutCheckId : Nat
  deriving DecidableEq

structure ChainStatistic where
  chainId : Nat
  In : ℤ
  Out : ℤ
  addresses : ℤ
  lastInCheckId : Nat
  lastOutCheckId : Nat
  deriving DecidableEq

structure AssetStatistic where
  tokenBasicName : String
  addressnum : ℤ
  txnum : ℤ
  amount : ℤ
  amountUsd : ℤ
  amountBtc : ℤ
  lastCheckId : Nat
  deriving DecidableEq

/-! ## Ledger queries (bridgedao; SQL not among the sources).

Modelled from the spec: the ledger interface exposes
`highestId(stream)` and `sumAndCountInRange(stream, filter, fromIdExclusive,
toIdInclusive)`; each stream is an ordered append-only list with
monotonically increasing ids. -/

/-- Modelled from the spec: `GetNewDstTransfer` / `GetNewSrcTransfer` /
`GetPolyTransaction` return the record with the highest id; the pass only
uses that id (the stream's high-water mark). -/
def maxTransferId (l : List TransferRecord) : Nat :=
  (l.map (·.id)).foldl Nat.max 0

/-- Modelled from the spec: high-water mark of a transaction stream. -/
def maxLedgerId (l : List LedgerRecord) : Nat :=
  (l.map (·.id)).foldl Nat.max 0

/-- Aggregate of matching transfers with ids in the open-left/closed-right
range `(fromId, toId]`. -/
structure RangeAggregate where
  amount : ℤ
  counter : ℤ
  deriving DecidableEq

/-- Modelled from the spec: `CalculateInTokenStatistics(chainId, hash, from,
to)` — sum and count of destination transfers for one (chain, asset) key
with id in `(fromId, toId]`; the SQL returns no row (`in == nil` in the Go
code) when nothing matches. -/
def calcInTokenStatistics (dst : List TransferRecord) (chainId : Nat) (hash : String)
    (fromId toId : Nat) : Option RangeAggregate :=
  let recs := dst.filter fun r =>
    decide (r.chainId = chainId ∧ r.hash = hash ∧ fromId < r.id ∧ r.id ≤ toId)
  if recs.isEmpty then none
  else some { amount := (recs.map (·.amount)).sum, counter := (recs.length : ℤ) }

/-- Modelled from the spec: `CalculateOutTokenStatistics`, the same
aggregate over the source-transfer stream. -/
def calcOutTokenStatistics (src : List TransferRecord) (chainId : Nat) (hash : String)
    (fromId toId : Nat) : Option RangeAggregate :=
  let recs := src.filter fun r =>
    decide (r.chainId = chainId ∧ r.hash = hash ∧ fromId < r.id ∧ r.id ≤ toId)
  if recs.isEmpty then none
  else some { amount := (recs.map (·.amount)).sum, counter := (recs.length : ℤ) }

/-! ## computeTokenStatistics (crosschainstats.go lines 186-308) -/

/-- Environment of one token-statistics pass: the two transfer streams, the
token catalog, the `GetTokenBasicByHash` lookup, the BTC reference price and
the outcome of `getAndRetryBalance` per (chain, hash). -/
structure TokenPassEnv where
  dst : List TransferRecord
  src : List TransferRecord
  tokens : List Token
  lookupFn : Nat → String → Option Token
  btcPriceRaw : ℤ
  balanceResult : Nat → String → Except String ℤ

/-- Lines 206-242: tokens of standard 0 with no statistic row yet get a
fresh all-zero row appended to the in-memory row set. -/
def freshTokenRows (tokens : List Token) (stats : List TokenStatistic) : List TokenStatistic :=
  (tokens.filter fun t =>
      decide (t.standard = 0) &&
      !(stats.any fun s => decide (s.chainId = t.chainId ∧ s.hash = t.hash))).map
    fun t =>
      { chainId := t.chainId, hash := t.hash,
        inAmount := 0, inAmountUsd := 0, inAmountBtc := 0,
        outAmount := 0, outAmountUsd := 0, outAmountBtc := 0,
        inCounter := 0, outCounter := 0,
        lastInCheckId := 0, lastOutCheckId := 0 }

/-- Lines 258-276: the inbound section of the row body.  When the row's
chain is the token's home chain the in amount is overwritten from the live
balance read; otherwise the ledger delta for `(LastInCheckId, nowInId]` is
added. -/
def tokenRowInPhase (env : TokenPassEnv) (nowInId : Nat) (token : Token)
    (statistic : TokenStatistic) : TokenStatistic :=
  let precision_new : Dec := pow10q token.precision
  if token.tokenBasic.chainId = statistic.chainId then
    match env.balanceResult statistic.chainId statistic.hash with
    | .error _ => statistic
    | .ok balance =>
      { statistic with
        inAmount := decBigInt ((balance : Dec) / precision_new * 100) }
  else
    match calcInTokenStatistics env.dst statistic.chainId statistic.hash
        statistic.lastInCheckId nowInId with
    | none => statistic
    | some r =>
      { statistic with
        inAmount := addDecimalBigInt statistic.inAmount
          (decBigInt ((r.amount : Dec) / precision_new * 100)),
        inCounter := addDecimalInt64 statistic.inCounter r.counter }

/-- Lines 277-280: USD/BTC valuation of the cumulative in amount. -/
def tokenRowInValuation (env : TokenPassEnv) (token : Token)
    (statistic : TokenStatistic) : TokenStatistic :=
  let BTCPrice : Dec := (env.btcPriceRaw : Dec) / (PRICE_PRECISION : Dec)
  let price_new : Dec := (token.tokenBasic.price : Dec) / (PRICE_PRECISION : Dec)
  let amount_usd : Dec := (statistic.inAmount : Dec) * price_new
  let amount_btc : Dec := amount_usd / BTCPrice
  { statistic with
    inAmountUsd := decBigInt (amount_usd * 100),
    inAmountBtc := decBigInt (amount_btc * 100) }

/-- Lines 282-299: the outbound section.  The source passes
`statistic.LastInCheckId` and `nowInId` — the INBOUND checkpoint and the
destination stream's high-water mark — to `CalculateOutTokenStatistics`
(line 282), not `LastOutCheckId` / `nowOutId`. -/
def tokenRowOutPhase (env : TokenPassEnv) (nowInId : Nat) (token : Token)
    (statistic : TokenStatistic) : TokenStatistic :=
  let BTCPrice : Dec := (env.btcPriceRaw : Dec) / (PRICE_PRECISION : Dec)
  let price_new : Dec := (token.tokenBasic.price : Dec) / (PRICE_PRECISION : Dec)
  let precision_new : Dec := pow10q token.precision
  match calcOutTokenStatistics env.src statistic.chainId statistic.hash
      statistic.lastInCheckId nowInId with
  | none => statistic
  | some r =>
    let statistic :=
      if statistic.chainId = token.tokenBasic.chainId then
        { statistic with outAmount := 0 }
      else
        { statistic with
          outAmount := addDecimalBigInt statistic.outAmount
            (decBigInt ((r.amount : Dec) / precision_new * 100)) }
    let amount_usd : Dec := (statistic.outAmount : Dec) * price_new
    let amount_btc : Dec := amount_usd / BTCPrice
    { statistic with
      outCounter := addDecimalInt64 statistic.outCounter r.counter,
      outAmountUsd := decBigInt (amount_usd * 100),
      outAmountBtc := decBigInt (amount_btc * 100) }

/-- Lines 300-301: both checkpoints advanced to the stream high-water marks. -/
def tokenRowCheckpoints (nowInId nowOutId : Nat) (statistic : TokenStatistic) : TokenStatistic :=
  { statistic with lastInCheckId := nowInId, lastOutCheckId := nowOutId }

/-- Lines 255-301 of `computeTokenStatistics` as a function of the `token`
value in scope.  In the shipped loop this body is reachable only through the
inverted lookup check (see `tokenStatLoop`), with `token = nil`; it is
translated here at its face value for the claims that cite these lines. -/
def tokenStatisticRowBody (env : TokenPassEnv) (nowInId nowOutId : Nat) (token : Token)
    (statistic : TokenStatistic) : TokenStatistic :=
  tokenRowCheckpoints nowInId nowOutId
    (tokenRowOutPhase env nowInId token
      (tokenRowInValuation env token
        (tokenRowInPhase env nowInId token statistic)))

/-- Lines 249-306, the row loop.  The source reads
`token, err := GetTokenBasicByHash(...); if err == nil { continue }` — on a
SUCCESSFUL lookup the row is skipped (never saved, so the stored set keeps
its old value), and on a failed lookup execution falls through to
`token.TokenBasic.Price` with `token = nil`, a nil-pointer dereference,
modelled as the whole pass returning `none`.  `saved` is the stored row set,
unchanged by skipped rows. -/
def tokenStatLoop (lookupFn : Nat → String → Option Token)
    (saved : List TokenStatistic) : List TokenStatistic → Option (List TokenStatistic)
  | [] => some saved
  | s :: rest =>
    match lookupFn s.chainId s.hash with
    | some _ => tokenStatLoop lookupFn saved rest
    | none => none

/-- `computeTokenStatistics` (lines 186-308): compute the high-water marks,
append fresh zero rows for newly seen tokens, then run the row loop. -/
def computeTokenStatisticsPass (env : TokenPassEnv) (db : List TokenStatistic) :
    Option (List TokenStatistic) :=
  let rows := db ++ freshTokenRows env.tokens db
  tokenStatLoop env.lookupFn db rows

/-! ## computeChainStatistics (crosschainstats.go lines 310-413) -/

/-- Environment of one chain-statistics pass: the destination, source and
relay transaction streams and the chain catalog. -/
structure ChainPassEnv where
  dstTransactions : List LedgerRecord
  srcTransactions : List LedgerRecord
  polyTransactions : List LedgerRecord
  chains : List Nat

/-- A fresh all-zero chain row; reused as the gorm zero value. -/
def zeroChainStatistic : ChainStatistic :=
  { chainId := 0, In := 0, Out := 0, addresses := 0, lastInCheckId := 0, lastOutCheckId := 0 }

/-- Modelled from the spec: `GetNewChainSta` reads the stored checkpoint row
the pass compares the high-water marks against — the chain-statistic row
with the greatest `LastInCheckId` (the gorm zero row when the set is empty). -/
def getNewChainSta (db : List ChainStatistic) : ChainStatistic :=
  db.foldl (fun acc cs => if acc.lastInCheckId < cs.lastInCheckId then cs else acc)
    zeroChainStatistic

/-- Modelled from the spec: `CalculateInChainStatistics(from, to, &out)` —
per-chain counts of destination transactions with id in `(fromId, toId]`. -/
def calcInChainStatistics (dst : List LedgerRecord) (fromId toId : Nat) :
    List ChainStatistic :=
  let recs := dst.filter fun r => decide (fromId < r.id ∧ r.id ≤ toId)
  ((recs.map (·.chainId)).dedup).map fun c =>
    { zeroChainStatistic with
      chainId := c,
      In := ((recs.filter fun r => decide (r.chainId = c)).length : ℤ) }

/-- Modelled from the spec: `CalculateOutChainStatistics`, per-chain counts
of source transactions with id in `(fromId, toId]`. -/
def calcOutChainStatistics (src : List LedgerRecord) (fromId toId : Nat) :
    List ChainStatistic :=
  let recs := src.filter fun r => decide (fromId < r.id ∧ r.id ≤ toId)
  ((recs.map (·.chainId)).dedup).map fun c =>
    { zeroChainStatistic with
      chainId := c,
      Out := ((recs.filter fun r => decide (r.chainId = c)).length : ℤ) }

/-- Modelled from the spec: `CalculatePolyChainStatistic(from, to)` — the
count of relay transactions with id in `(fromId, toId]`. -/
def calculatePolyChainStatistic (poly : List LedgerRecord) (fromId toId : Nat) : ℤ :=
  ((poly.filter fun r => decide (fromId < r.id ∧ r.id ≤ toId)).length : ℤ)

/-- Lines 363-374: chains from the catalog with no statistic row get a fresh
zero row whose checkpoints start at the current high-water marks. -/
def freshChainRows (chains : List Nat) (stats : List ChainStatistic)
    (nowInId nowOutId : Nat) : List ChainStatistic :=
  (chains.filter fun c => !(stats.any fun s => decide (s.chainId = c))).map fun c =>
    { chainId := c, In := 0, Out := 0, addresses := 0,
      lastInCheckId := nowInId, lastOutCheckId := nowOutId }

/-- The match condition of the fold loops on lines 377 and 383:
`chainStatistic.ChainId == other.ChainId && chainStatistic.ChainId != POLY`. -/
def chainMatch (cs r : ChainStatistic) : Bool :=
  decide (cs.chainId = r.chainId ∧ cs.chainId ≠ POLY_CROSSCHAIN_ID)

/-- Lines 375-392: fold the per-chain in/out deltas into one row.  The
relay chain id is excluded from both folds and keeps its checkpoints. -/
def chainRowFold (ins outs : List ChainStatistic) (nowInId nowOutId : Nat)
    (cs : ChainStatistic) : ChainStatistic :=
  let cs :=
    match ins.find? (chainMatch cs) with
    | some r => { cs with In := addDecimalInt64 cs.In r.In }
    | none => cs
  let cs :=
    match outs.find? (chainMatch cs) with
    | some r => { cs with Out := addDecimalInt64 cs.Out r.Out }
    | none => cs
  if cs.chainId ≠ POLY_CROSSCHAIN_ID then
    { cs with lastInCheckId := nowInId, lastOutCheckId := nowOutId }
  else cs

/-- Lines 394-406: the first relay-chain row gets the relay counter — the
separate query bounded by the relay stream's high-water mark — added to both
its In and Out totals, and both its checkpoints set to that mark; the loop
breaks at the first relay row. -/
def polyRowUpdateFirst (poly : List LedgerRecord) (polyCheckId : Nat) :
    List ChainStatistic → List ChainStatistic
  | [] => []
  | cs :: rest =>
    if cs.chainId = POLY_CROSSCHAIN_ID then
      let counter := calculatePolyChainStatistic poly cs.lastInCheckId polyCheckId
      { cs with
        In := addDecimalInt64 counter cs.In,
        Out := addDecimalInt64 counter cs.Out,
        lastInCheckId := polyCheckId,
        lastOutCheckId := polyCheckId } :: rest
    else cs :: polyRowUpdateFirst poly polyCheckId rest

/-- `computeChainStatistics` (lines 310-413).  When neither the destination
nor the source stream advanced past the stored checkpoints the guarded block
is skipped and nothing is saved. -/
def computeChainStatisticsPass (env : ChainPassEnv) (db : List ChainStatistic) :
    List ChainStatistic :=
  let nowSta := getNewChainSta db
  let nowInId := maxLedgerId env.dstTransactions
  let nowOutId := maxLedgerId env.srcTransactions
  let inChainStatistics :=
    if nowSta.lastInCheckId < nowInId then
      calcInChainStatistics env.dstTransactions nowSta.lastInCheckId nowInId
    else []
  let outChainStatistics :=
    if nowSta.lastOutCheckId < nowOutId then
      calcOutChainStatistics env.srcTransactions nowSta.lastOutCheckId nowOutId
    else []
  let polyCheckId := maxLedgerId env.polyTransactions
  if nowSta.lastInCheckId < nowInId ∨ nowSta.lastOutCheckId < nowOutId then
    let rows := db ++ freshChainRows env.chains db nowInId nowOutId
    let rows := rows.map (chainRowFold inChainStatistics outChainStatistics nowInId nowOutId)
    polyRowUpdateFirst env.polyTransactions polyCheckId rows
  else db

/-! ## computeAssetStatistics (crosschainstats.go lines 450-520) -/

/-- One row of the `CalculateAssets` aggregate: summed raw amount, transfer
count, and the asset's precision and price joined from the catalog. -/
structure AssetInfo where
  amount : ℤ
  txnum : ℤ
  precision : Nat
  price : ℤ
  deriving DecidableEq

/-- Environment of one asset-statistics pass. -/
structure AssetPassEnv where
  srcTransfers : List TransferRecord
  basics : List TokenBasic
  btcPriceRaw : ℤ

/-- Modelled from the spec: `CalculateAssets(name, from, to)` — sum and
count of source transfers of one token basic with id in `(fromId, toId]`,
grouped by basic name with precision and price joined from the catalog; no
rows when nothing matches. -/
def calculateAssets (env : AssetPassEnv) (name : String) (fromId toId : Nat) :
    List AssetInfo :=
  let recs := env.srcTransfers.filter fun r =>
    decide (r.basicName = name ∧ fromId < r.id ∧ r.id ≤ toId)
  if recs.isEmpty then []
  else
    match env.basics.find? (fun b => decide (b.name = name)) with
    | some b =>
      [{ amount := (recs.map (·.amount)).sum, txnum := (recs.length : ℤ),
         precision := b.precision, price := b.price }]
    | none => []

/-- Lines 474-486: basics of standard 0 with no statistic row yet get a
fresh all-zero row with checkpoint 0. -/
def freshAssetRows (basics : List TokenBasic) (stats : List AssetStatistic) :
    List AssetStatistic :=
  (basics.filter fun b =>
      decide (b.standard = 0) &&
      !(stats.any fun s => decide (s.tokenBasicName = b.name))).map fun b =>
    { tokenBasicName := b.name, addressnum := 0, txnum := 0,
      amount := 0, amountUsd := 0, amountBtc := 0, lastCheckId := 0 }

/-- Lines 493-511: fold the `(LastCheckId, nowId]` delta of one basic into
its row and advance the checkpoint to `nowId`. -/
def assetRowUpdate (env : AssetPassEnv) (nowId : Nat) (old : AssetStatistic) :
    AssetStatistic :=
  let BTCPrice : Dec := (env.btcPriceRaw : Dec) / (PRICE_PRECISION : Dec)
  let infos := calculateAssets env old.tokenBasicName old.lastCheckId nowId
  let old := infos.foldl
    (fun old info =>
      let amount_new : Dec := (info.amount : Dec)
      let precision_new : Dec := pow10q info.precision
      let real_amount : Dec := amount_new / precision_new
      let price_new : Dec := (info.price : Dec) / (PRICE_PRECISION : Dec)
      let amount_usd : Dec := real_amount * price_new
      let amount_btc : Dec := amount_usd / BTCPrice
      { old with
        amount := decBigInt (real_amount * 100 + (old.amount : Dec)),
        amountUsd := decBigInt (amount_usd * 10000 + (old.amountUsd : Dec)),
        amountBtc := decBigInt (amount_btc * 10000 + (old.amountBtc : Dec)),
        txnum := old.txnum + info.txnum })
    old
  { old with lastCheckId := nowId }

/-- Lines 492-516, the row loop with per-row persistence.  `SaveAssetStatistic`
failure makes the function RETURN (line 514), so the failing row and every
row after it keep their stored values.  The first component is the stored row
set after the pass, the second the returned error. -/
def assetStatLoop (env : AssetPassEnv) (nowId : Nat) (saveFails : String → Bool) :
    List AssetStatistic → List AssetStatistic × Option String
  | [] => ([], none)
  | old :: rest =>
    let updated := assetRowUpdate env nowId old
    if saveFails updated.tokenBasicName then
      (old :: rest, some "Failed to UpdateTransferStatistic")
    else
      let r := assetStatLoop env nowId saveFails rest
      (updated :: r.1, r.2)

/-- `computeAssetStatistics` (lines 450-520). -/
def computeAssetStatisticsPass (env : AssetPassEnv) (saveFails : String → Bool)
    (db : List AssetStatistic) : List AssetStatistic × Option String :=
  let nowId := maxTransferId env.srcTransfers
  let rows := db ++ freshAssetRows env.basics db
  assetStatLoop env nowId saveFails rows

/-! ## Reserve reconciler (crosschainstats.go lines 550-828) -/

structure DstChainAsset where
  chainId : Nat
  hash : String
  totalSupply : ℤ
  balance : ℤ
  flow : ℤ
  deriving DecidableEq

/-- `AssetDetail` (lines 557-565).  `amountUsd` models the `Amount_usd`
decimal string: the value written by `StringFixed(0)` when the difference is
positive, and `0` otherwise (the Go zero value is the empty string, which
`decimal.NewFromString` in `sendDing` parses to the zero decimal). -/
structure AssetDetail where
  basicName : String
  tokenAsset : List DstChainAsset
  difference : ℤ
  precision : Nat
  price : ℤ
  amountUsd : ℤ
  reason : String
  deriving DecidableEq

/-- `inExtraBasic` (lines 655-663). -/
def inExtraBasic (name : String) : Bool :=
  ["BLES", "GOF", "LEV", "mBTM", "MOZ", "O3", "USDT", "STN", "XMPT"].any
    fun basic => name == basic

/-- `specialBasic` (lines 664-721): the fixed manual-override table for
(asset name, chain) pairs, tried in source order; any other pair passes the
fetched total supply through. -/
def specialBasic (token : Token) (totalSupply : ℤ) : ℤ :=
  let presion : ℤ := ipow10 token.precision
  if token.tokenBasicName = "YNI" ∧ token.chainId = ETHEREUM_CROSSCHAIN_ID then 0
  else if token.tokenBasicName = "YNI" ∧ token.chainId = HECO_CROSSCHAIN_ID then
    1 * presion
  else if token.tokenBasicName = "DAO" ∧ token.chainId = ETHEREUM_CROSSCHAIN_ID then
    1000 * presion
  else if token.tokenBasicName = "DAO" ∧ token.chainId = HECO_CROSSCHAIN_ID then
    1000 * presion
  else if token.tokenBasicName = "COPR" ∧ token.chainId = BSC_CROSSCHAIN_ID then
    274400000 * presion
  else if token.tokenBasicName = "COPR" ∧ token.chainId = HECO_CROSSCHAIN_ID then 0
  else if token.tokenBasicName = "DigiCol ERC-721" ∧ token.chainId = ETHEREUM_CROSSCHAIN_ID then 0
  else if token.tokenBasicName = "DigiCol ERC-721" ∧ token.chainId = HECO_CROSSCHAIN_ID then 0
  else if token.tokenBasicName = "DMOD" ∧ token.chainId = ETHEREUM_CROSSCHAIN_ID then 0
  else if token.tokenBasicName = "DMOD" ∧ token.chainId = BSC_CROSSCHAIN_ID then
    15000000 * presion
  else if token.tokenBasicName = "SIL" ∧ token.chainId = ETHEREUM_CROSSCHAIN_ID then
    1487520675265330391631
  else if token.tokenBasicName = "SIL" ∧ token.chainId = BSC_CROSSCHAIN_ID then
    5001 * presion
  else if token.tokenBasicName = "DOGK" ∧ token.chainId = BSC_CROSSCHAIN_ID then 0
  else if token.tokenBasicName = "DOGK" ∧ token.chainId = HECO_CROSSCHAIN_ID then
    285000000000 * presion
  else if token.tokenBasicName = "SXC" ∧ token.chainId = OK_CROSSCHAIN_ID then 0
  else if token.tokenBasicName = "SXC" ∧ token.chainId = MATIC_CROSSCHAIN_ID then 0
  else if token.tokenBasicName = "OOE" ∧ token.chainId = MATIC_CROSSCHAIN_ID then 0
  else totalSupply

/-- The (asset name, chain id) pairs whose fetched supply `specialBasic`
overrides — the conditions of its if-chain. -/
def specialBasicPairs : List (String × Nat) :=
  [("YNI", ETHEREUM_CROSSCHAIN_ID), ("YNI", HECO_CROSSCHAIN_ID),
   ("DAO", ETHEREUM_CROSSCHAIN_ID), ("DAO", HECO_CROSSCHAIN_ID),
   ("COPR", BSC_CROSSCHAIN_ID), ("COPR", HECO_CROSSCHAIN_ID),
   ("DigiCol ERC-721", ETHEREUM_CROSSCHAIN_ID), ("DigiCol ERC-721", HECO_CROSSCHAIN_ID),
   ("DMOD", ETHEREUM_CROSSCHAIN_ID), ("DMOD", BSC_CROSSCHAIN_ID),
   ("SIL", ETHEREUM_CROSSCHAIN_ID), ("SIL", BSC_CROSSCHAIN_ID),
   ("DOGK", BSC_CROSSCHAIN_ID), ("DOGK", HECO_CROSSCHAIN_ID),
   ("SXC", OK_CROSSCHAIN_ID), ("SXC", MATIC_CROSSCHAIN_ID),
   ("OOE", MATIC_CROSSCHAIN_ID)]

/-- `notToken` (lines 722-727). -/
def notToken (token : Token) : Bool :=
  decide (token.tokenBasicName = "USDT" ∧ token.precision ≠ 6)

/-- The retry loop shared by `getAndRetryBalance` (lines 772-784) and
`getAndRetryTotalSupply` (lines 786-798): each iteration first performs a
`time.Sleep(time.Second)` backoff — counted in the second component — then
re-queries; a success breaks out.  `attempt i` is the outcome of the
(i+1)-th chain query. -/
def retryLoop (attempt : Nat → Except String ℤ) :
    Nat → Nat → Except String ℤ → Except String ℤ × Nat
  | _, 0, last => (last, 0)
  | i, r + 1, _ =>
    match attempt i with
    | .ok v => (.ok v, 1)
    | .error e =>
      let rec' := retryLoop attempt (i + 1) r (.error e)
      (rec'.1, rec'.2 + 1)

/-- `getAndRetryBalance`: one initial query, then up to 4 retries with a
1-second backoff before each. -/
def getAndRetryBalance (attempt : Nat → Except String ℤ) : Except String ℤ × Nat :=
  match attempt 0 with
  | .ok v => (.ok v, 0)
  | .error e => retryLoop attempt 1 4 (.error e)

/-- `getAndRetryTotalSupply`: one initial query, then up to 2 retries with a
1-second backoff before each. -/
def getAndRetryTotalSupply (attempt : Nat → Except String ℤ) : Except String ℤ × Nat :=
  match attempt 0 with
  | .ok v => (.ok v, 0)
  | .error e => retryLoop attempt 1 2 (.error e)

/-- Environment of one reconciler pass: per-(chain, hash) attempt oracles
for the balance and total-supply chain queries, and the o3 HTTP lookups
(`none` models a non-200 response, after which `getO3Data` returns without
touching the detail). -/
structure ReconEnv where
  balanceAttempts : Nat → String → Nat → Except String ℤ
  supplyAttempts : Nat → String → Nat → Except String ℤ
  o3WBTCBalance : Option ℤ
  o3USDTBalance : Option ℤ

/-- Lines 590-616, one chain entry of an asset detail: fetch balance and
supply with retry, degrade a persistent failure to zero while recording the
reason, apply the `specialBasic` override, zero the supply on the basic's
home chain unless the basic is on the extra list, and compute
`flow = totalSupply - balance`.  The second component is the reason to
record, if any (the supply failure overwrites the balance failure, as the
source assigns `assetDetail.Reason` on each failure). -/
def buildChainAsset (env : ReconEnv) (basic : TokenBasic) (token : Token) :
    DstChainAsset × Option String :=
  let balRes := (getAndRetryBalance (env.balanceAttempts token.chainId token.hash)).1
  let balance : ℤ := match balRes with | .ok b => b | .error _ => 0
  let reason1 : Option String := match balRes with | .ok _ => none | .error e => some e
  let supRes := (getAndRetryTotalSupply (env.supplyAttempts token.chainId token.hash)).1
  let supply0 : ℤ := match supRes with | .ok s => s | .error _ => 0
  let reason2 : Option String :=
    match supRes with | .ok _ => reason1 | .error e => some e
  let supply1 := specialBasic token supply0
  let supply2 :=
    if ¬inExtraBasic token.tokenBasicName ∧ basic.chainId = token.chainId then 0
    else supply1
  ({ chainId := token.chainId, hash := token.hash, totalSupply := supply2,
     balance := balance, flow := supply2 - balance }, reason2)

/-- Lines 583-617: the eligible chain entries of one basic —
`notToken` and non-reserve (`Property != 1`) tokens are skipped. -/
def eligibleTokens (tokens : List Token) : List Token :=
  tokens.filter fun t => !notToken t && decide (t.property = 1)

/-- Lines 579-622: build the detail record of one basic: its chain entries,
the aggregate difference (the running `totalFlow` sum), and the last
recorded failure reason (the Go zero value `""` when every fetch succeeded). -/
def buildAssetDetail (env : ReconEnv) (basic : TokenBasic) (tokens : List Token) :
    AssetDetail :=
  let entries := (eligibleTokens tokens).map fun t => buildChainAsset env basic t
  let totalFlow := (entries.map (fun e => e.1.flow)).foldl addDecimalBigInt 0
  let reason := entries.foldl
    (fun acc e => match e.2 with | some r => r | none => acc) ""
  { basicName := basic.name, tokenAsset := entries.map (·.1),
    difference := totalFlow, precision := basic.precision, price := basic.price,
    amountUsd := 0, reason := reason }

/-- `getO3Data` (lines 728-770): for WBTC the o3 balance is appended as a
synthetic flow-only entry and added to the difference; for USDT it is
appended as a balance-only entry without touching the difference.  (On a
transport error the source would dereference a nil response in the deferred
`Body.Close`; the model covers the non-200 early return.) -/
def getO3Data (env : ReconEnv) (d : AssetDetail) : AssetDetail :=
  if d.basicName = "WBTC" then
    match env.o3WBTCBalance with
    | none => d
    | some b =>
      { d with
        tokenAsset := d.tokenAsset ++
          [{ chainId := O3_CROSSCHAIN_ID, hash := "", totalSupply := 0,
             balance := 0, flow := b }],
        difference := d.difference + b }
  else if d.basicName = "USDT" then
    match env.o3USDTBalance with
    | none => d
    | some b =>
      { d with
        tokenAsset := d.tokenAsset ++
          [{ chainId := O3_CROSSCHAIN_ID, hash := "", totalSupply := 0,
             balance := b, flow := 0 }] }
  else d

/-- Lines 629-631: `Amount_usd` is computed only for a positive difference:
`difference / 10^precision * (price * 10^-8)`, rendered by `StringFixed(0)`. -/
def assetAmountUsd (d : AssetDetail) : AssetDetail :=
  if 0 < d.difference then
    { d with
      amountUsd := decRound ((d.difference : Dec) / pow10q d.precision *
        ((d.price : Dec) / (PRICE_PRECISION : Dec))) }
  else d

/-- `sendDing` (lines 800-828): whether an alert message is posted.  Details
whose recorded reason is exactly "all node is not working" are skipped; the
rest contribute when the difference is positive and the parsed `Amount_usd`
strictly exceeds 10000. -/
def sendDingFlag (assetDetails : List AssetDetail) : Bool :=
  assetDetails.foldl
    (fun flag d =>
      if d.reason == "all node is not working" then flag
      else if decide (0 < d.difference) && decide (10000 < d.amountUsd) then true
      else flag)
    false

/-- `startCheckAssetAlarm` (lines 567-654): build a detail per
reserve-tracked basic, merge the o3 figures, route extra-list basics to the
"wrongdata" bucket (excluded from alerting), value the rest in USD, and post
one batched alert when any non-excluded detail qualifies.  Returns (alert
delivered, right-data details, extra details). -/
def startCheckAssetAlarm (env : ReconEnv)
    (propertyBasics : List (TokenBasic × List Token)) :
    Bool × List AssetDetail × List AssetDetail :=
  let step := fun (acc : List AssetDetail × List AssetDetail) (bt : TokenBasic × List Token) =>
    let assetDetail := buildAssetDetail env bt.1 bt.2
    let assetDetail := getO3Data env assetDetail
    if inExtraBasic assetDetail.basicName then (acc.1, acc.2 ++ [assetDetail])
    else (acc.1 ++ [assetAmountUsd assetDetail], acc.2)
  let res := propertyBasics.foldl step ([], [])
  (sendDingFlag res.1, res.1, res.2)

/-! ## The scheduler loop (crosschainstats.go lines 73-107).

`run` is `for { select { case <-ticker.C: f() ; case <-this.Done(): break } }`
followed by `this.wg.Done()`.  Per the Go specification a `break` statement
terminates the innermost enclosing `for`, `switch` or `select` statement —
here the `select` — so both select cases fall back into the `for` loop.
After cancellation the Done channel is always ready and the ticker keeps
firing, so each round the select chooses either ready case. -/

/-- The select case chosen in one round: the ticker fired, or the
cancellation (Done) channel was ready. -/
inductive SelectCase
  | tick
  | done
  deriving DecidableEq

/-- Control position of one `run` goroutine: inside the for loop, or past
it at the `wg.Done()` call. -/
inductive RunCtrl
  | inLoop
  | afterLoop
  deriving DecidableEq

/-- One round of the loop body.  The state is (control position, number of
passes `f()` executed).  `tick` runs a pass and the for loop continues;
`done` executes `break`, which terminates only the select, so the for loop
continues as well. -/
def runSelectStep (c : SelectCase) (st : RunCtrl × Nat) : RunCtrl × Nat :=
  match st.1 with
  | .afterLoop => st
  | .inLoop =>
    match c with
    | .tick => (.inLoop, st.2 + 1)
    | .done => (.inLoop, st.2)

/-- Execution of the `run` loop over a finite schedule of select choices. -/
def runLoopExec (sched : List SelectCase) : RunCtrl × Nat :=
  sched.foldl (fun st c => runSelectStep c st) (.inLoop, 0)

/-- `this.wg.Done()` (line 87) runs only after the for loop exits. -/
def wgDoneReached (st : RunCtrl × Nat) : Bool := st.1 == RunCtrl.afterLoop

/-- `Stop` (lines 103-107) cancels and then blocks in `wg.Wait()`, which
returns only once every `run` goroutine has reached its `wg.Done()`. -/
def stopReturns (states : List (RunCtrl × Nat)) : Bool :=
  states.all wgDoneReached

/-! ## Helper lemmas -/

/-- A leg of `Except`, used to state persistent fetch failure. -/
def isErr (e : Except String ℤ) : Bool :=
  match e with
  | .error _ => true
  | .ok _ => false

theorem runFold_inLoop (sched : List SelectCase) (st : RunCtrl × Nat)
    (h : st.1 = RunCtrl.inLoop) :
    (sched.foldl (fun st c => runSelectStep c st) st).1 = RunCtrl.inLoop := by
  induction sched generalizing st with
  | nil => simpa using h
  | cons c rest ih =>
    simp only [List.foldl_cons]
    apply ih
    obtain ⟨ctrl, n⟩ := st
    cases h
    cases c <;> rfl

theorem retryLoop_sleeps_le (attempt : Nat → Except String ℤ) (r i : Nat)
    (last : Except String ℤ) : (retryLoop attempt i r last).2 ≤ r := by
  induction r generalizing i last with
  | zero => simp [retryLoop]
  | succ r ih =>
    rw [retryLoop]
    cases attempt i with
    | ok v => simp
    | error e => simpa using ih (i + 1) (.error e)

/-! ## Claims -/

/-- C10: the claim says that after the shutdown signal every per-category
timer loop terminates, no further pass starts, and `Stop` eventually
returns.  The code is wrong: the `break` on line 84 terminates only the
`select`, so the `for` loop of `run` never exits under ANY schedule of
select choices, `wg.Done()` is unreachable, `wg.Wait()` inside `Stop`
blocks forever, and a schedule in which the ticker fires after the Done
channel is ready still runs another pass. -/
theorem run_loop_never_exits :
    (∀ sched : List SelectCase, wgDoneReached (runLoopExec sched) = false) ∧
    (∀ sched : List SelectCase, stopReturns [runLoopExec sched] = false) ∧
    (runLoopExec [SelectCase.done, SelectCase.tick]).2 = 1 := by
  have key : ∀ sched : List SelectCase, (runLoopExec sched).1 = RunCtrl.inLoop :=
    fun sched => runFold_inLoop sched (RunCtrl.inLoop, 0) rfl
  refine ⟨fun sched => ?_, fun sched => ?_, rfl⟩
  · simp [wgDoneReached, key sched]
  · simp [stopReturns, wgDoneReached, key sched]

/-- C7: in the reserve reconciler the ("DAO", ETHEREUM) entry of the manual
override table replaces the fetched total supply with `1000 * 10^precision`
— independently of the fetched value — and that override is the total
supply used for the chain entry's flow computation (when the entry is not
zeroed by the home-chain rule); any (name, chain) pair outside the table
passes the raw fetched supply through. -/
theorem specialBasic_override_table :
    (∀ (t : Token) (s : ℤ), t.tokenBasicName = "DAO" →
        t.chainId = ETHEREUM_CROSSCHAIN_ID →
        specialBasic t s = 1000 * ipow10 t.precision) ∧
    (∀ (t : Token) (s : ℤ), (t.tokenBasicName, t.chainId) ∉ specialBasicPairs →
        specialBasic t s = s) ∧
    (∀ (env : ReconEnv) (basic : TokenBasic) (t : Token),
        t.tokenBasicName = "DAO" → t.chainId = ETHEREUM_CROSSCHAIN_ID →
        basic.chainId ≠ t.chainId →
        (buildChainAsset env basic t).1.totalSupply = 1000 * ipow10 t.precision ∧
        (buildChainAsset env basic t).1.flow =
          1000 * ipow10 t.precision - (buildChainAsset env basic t).1.balance) := by
  have override : ∀ (t : Token) (s : ℤ), t.tokenBasicName = "DAO" →
      t.chainId = ETHEREUM_CROSSCHAIN_ID →
      specialBasic t s = 1000 * ipow10 t.precision := by
    intro t s h1 h2
    simp [specialBasic, h1, h2, ETHEREUM_CROSSCHAIN_ID, HECO_CROSSCHAIN_ID]
  refine ⟨override, ?_, ?_⟩
  · intro t s h
    simp only [specialBasicPairs, List.mem_cons, List.not_mem_nil, or_false,
      Prod.mk.injEq, not_or] at h
    obtain ⟨h1, h2, h3, h4, h5, h6, h7, h8, h9, h10, h11, h12, h13, h14, h15, h16, h17⟩ := h
    simp only [specialBasic]
    rw [if_neg h1, if_neg h2, if_neg h3, if_neg h4, if_neg h5, if_neg h6, if_neg h7,
      if_neg h8, if_neg h9, if_neg h10, if_neg h11, if_neg h12, if_neg h13, if_neg h14,
      if_neg h15, if_neg h16, if_neg h17]
  · intro env basic t h1 h2 h3
    have hextra : inExtraBasic t.tokenBasicName = false := by
      rw [h1]; rfl
    constructor
    · show (if ¬inExtraBasic t.tokenBasicName ∧ basic.chainId = t.chainId then 0
        else specialBasic t _) = 1000 * ipow10 t.precision
      rw [if_neg (by simp [hextra, h3]), override t _ h1 h2]
    · show (if ¬inExtraBasic t.tokenBasicName ∧ basic.chainId = t.chainId then 0
          else specialBasic t _) - _ =
        1000 * ipow10 t.precision - (buildChainAsset env basic t).1.balance
      rw [if_neg (by simp [hextra, h3]), override t _ h1 h2]
      rfl

/-- Concrete inputs for the C7 witness. -/
def daoBasicW : TokenBasic := ⟨"DAO", HECO_CROSSCHAIN_ID, 1, 18, 0, 1⟩

def daoTokenW : Token := ⟨ETHEREUM_CROSSCHAIN_ID, "0xdao", 18, 0, 1, "DAO", daoBasicW⟩

def wbtcTokenW : Token :=
  ⟨BSC_CROSSCHAIN_ID, "0xwbtc", 8, 0, 1, "WBTC", ⟨"WBTC", ETHEREUM_CROSSCHAIN_ID, 1, 8, 0, 1⟩⟩

def reconEnvW : ReconEnv := ⟨fun _ _ _ => .ok 3, fun _ _ _ => .ok 9, none, none⟩

/-- C7 witness: the override at a concrete DAO/Ethereum token, the
pass-through at a concrete untabled (WBTC, BSC) pair, and the entry-level
supply of a concrete detail build. -/
theorem specialBasic_override_table_witness :
    specialBasic daoTokenW 77 = 1000 * ipow10 18 ∧
    specialBasic wbtcTokenW 555 = 555 ∧
    (buildChainAsset reconEnvW daoBasicW daoTokenW).1.totalSupply = 1000 * ipow10 18 := by
  refine ⟨specialBasic_override_table.1 _ 77 rfl rfl,
    specialBasic_override_table.2.1 _ 555 (by decide),
    (specialBasic_override_table.2.2 _ _ _ rfl rfl (by decide)).1⟩

/-- C9: a balance fetch is the initial query plus up to 4 retries, a
total-supply fetch the initial query plus up to 2 retries, each retry
preceded by one 1-second sleep (the counted backoff); when every attempt
fails the figure degrades to zero in the chain entry, a failure reason is
recorded on the detail, and the per-token loop still produces an entry for
every eligible token (the pass is a total fold, never aborted). -/
theorem fetch_retry_and_degrade :
    (∀ attempt : Nat → Except String ℤ, (∀ i, i ≤ 4 → isErr (attempt i) = true) →
      isErr (getAndRetryBalance attempt).1 = true ∧ (getAndRetryBalance attempt).2 = 4) ∧
    (∀ attempt : Nat → Except String ℤ, (∀ i, i ≤ 2 → isErr (attempt i) = true) →
      isErr (getAndRetryTotalSupply attempt).1 = true ∧
      (getAndRetryTotalSupply attempt).2 = 2) ∧
    (∀ attempt : Nat → Except String ℤ,
      (getAndRetryBalance attempt).2 ≤ 4 ∧ (getAndRetryTotalSupply attempt).2 ≤ 2) ∧
    (∀ (env : ReconEnv) (basic : TokenBasic) (t : Token),
      isErr (getAndRetryBalance (env.balanceAttempts t.chainId t.hash)).1 = true →
      (buildChainAsset env basic t).1.balance = 0 ∧
      (buildChainAsset env basic t).2.isSome = true) ∧
    (∀ (env : ReconEnv) (basic : TokenBasic) (tokens : List Token),
      (buildAssetDetail env basic tokens).tokenAsset =
        (eligibleTokens tokens).map fun t => (buildChainAsset env basic t).1) := by
  have err_of : ∀ (e : Except String ℤ), isErr e = true → ∃ s, e = .error s := by
    intro e he
    cases e with
    | error s => exact ⟨s, rfl⟩
    | ok v => simp [isErr] at he
  refine ⟨?_, ?_, ?_, ?_, ?_⟩
  · intro attempt h
    obtain ⟨e0, h0⟩ := err_of _ (h 0 (by norm_num))
    obtain ⟨e1, h1⟩ := err_of _ (h 1 (by norm_num))
    obtain ⟨e2, h2⟩ := err_of _ (h 2 (by norm_num))
    obtain ⟨e3, h3⟩ := err_of _ (h 3 (by norm_num))
    obtain ⟨e4, h4⟩ := err_of _ (h 4 (by norm_num))
    simp [getAndRetryBalance, retryLoop, h0, h1, h2, h3, h4, isErr]
  · intro attempt h
    obtain ⟨e0, h0⟩ := err_of _ (h 0 (by norm_num))
    obtain ⟨e1, h1⟩ := err_of _ (h 1 (by norm_num))
    obtain ⟨e2, h2⟩ := err_of _ (h 2 (by norm_num))
    simp [getAndRetryTotalSupply, retryLoop, h0, h1, h2, isErr]
  · intro attempt
    constructor
    · rw [getAndRetryBalance]
      cases attempt 0 with
      | ok v => simp
      | error e => simpa using retryLoop_sleeps_le attempt 4 1 (.error e)
    · rw [getAndRetryTotalSupply]
      cases attempt 0 with
      | ok v => simp
      | error e => simpa using retryLoop_sleeps_le attempt 2 1 (.error e)
  · intro env basic t h
    obtain ⟨e, he⟩ := err_of _ h
    constructor
    · simp [buildChainAsset, he]
    · cases hs : (getAndRetryTotalSupply (env.supplyAttempts t.chainId t.hash)).1 with
      | error s => simp [buildChainAsset, he, hs]
      | ok v => simp [buildChainAsset, he, hs]
  · intro env basic tokens
    simp [buildAssetDetail, List.map_map]

/-- Concrete inputs for the C9 witness. -/
def reconEnvFailW : ReconEnv :=
  ⟨fun _ _ _ => .error "all node is not working", fun _ _ _ => .ok 9, none, none⟩

def xBasicW : TokenBasic := ⟨"X", 7, 1, 8, 0, 1⟩

def xTokenW : Token := ⟨2, "0x", 8, 0, 1, "X", xBasicW⟩

/-- C9 witness: every attempt failing with a concrete message. -/
theorem fetch_retry_and_degrade_witness :
    isErr (getAndRetryBalance fun _ => .error "all node is not working").1 = true ∧
    (getAndRetryBalance fun _ => .error "all node is not working").2 = 4 ∧
    (getAndRetryTotalSupply fun _ => .error "all node is not working").2 = 2 ∧
    (buildChainAsset reconEnvFailW xBasicW xTokenW).1.balance = 0 := by
  refine ⟨(fetch_retry_and_degrade.1 (fun _ => .error "all node is not working")
      fun _ _ => rfl).1,
    (fetch_retry_and_degrade.1 (fun _ => .error "all node is not working")
      fun _ _ => rfl).2,
    (fetch_retry_and_degrade.2.1 (fun _ => .error "all node is not working")
      fun _ _ => rfl).2,
    (fetch_retry_and_degrade.2.2.2.1 reconEnvFailW xBasicW xTokenW (by decide)).1⟩

/-! ### C3 — the inverted lookup check -/

/-- C3: in the token-statistics row loop a SUCCESSFUL `GetTokenBasicByHash`
lookup (`err == nil`) skips the row without any update — the loop result is
exactly the result over the remaining rows, and the stored set is never
modified by the loop — while a FAILED lookup falls through to dereference
the nil token, crashing the pass (`none`). -/
theorem token_lookup_branches :
    (∀ (f : Nat → String → Option Token) (saved : List TokenStatistic)
        (s : TokenStatistic) (rest : List TokenStatistic),
      ((f s.chainId s.hash).isSome = true →
        tokenStatLoop f saved (s :: rest) = tokenStatLoop f saved rest) ∧
      (f s.chainId s.hash = none → tokenStatLoop f saved (s :: rest) = none)) ∧
    (∀ (f : Nat → String → Option Token) (saved rows : List TokenStatistic),
      tokenStatLoop f saved rows = some saved ∨ tokenStatLoop f saved rows = none) := by
  constructor
  · intro f saved s rest
    constructor
    · intro h
      cases hx : f s.chainId s.hash with
      | none => rw [hx] at h; simp at h
      | some t => simp [tokenStatLoop, hx]
    · intro h
      simp [tokenStatLoop, h]
  · intro f saved rows
    induction rows with
    | nil => left; rfl
    | cons s rest ih =>
      cases hx : f s.chainId s.hash with
      | none => right; simp [tokenStatLoop, hx]
      | some t => simpa [tokenStatLoop, hx] using ih

/-- Concrete inputs for the C3 witness. -/
def tokW : Token := ⟨2, "t", 8, 0, 0, "T", ⟨"T", 2, 1, 8, 0, 0⟩⟩

def statW : TokenStatistic := ⟨2, "t", 1, 2, 3, 4, 5, 6, 7, 8, 9, 10⟩

/-- C3 witness: a successful lookup skips the concrete row, a failing
lookup crashes the loop. -/
theorem token_lookup_branches_witness :
    tokenStatLoop (fun _ _ => some tokW) [statW] [statW] =
      tokenStatLoop (fun _ _ => some tokW) [statW] [] ∧
    tokenStatLoop (fun _ _ => none) [statW] [statW] = none := by
  exact ⟨(token_lookup_branches.1 (fun _ _ => some tokW) [statW] statW []).1 rfl,
    (token_lookup_branches.1 (fun _ _ => none) [statW] statW []).2 rfl⟩

/-! ### C2 — the outbound delta range -/

/-- Concrete inputs exhibiting the outbound-range slip. -/
def c2Basic : TokenBasic := ⟨"T", 6, 100000000, 0, 0, 0⟩

def c2Token : Token := ⟨2, "h", 0, 0, 0, "T", c2Basic⟩

def c2Stat : TokenStatistic := ⟨2, "h", 0, 0, 0, 0, 0, 0, 0, 0, 20, 0⟩

def c2Env : TokenPassEnv :=
  ⟨[⟨20, 999, "x", 0, "T"⟩], [⟨5, 2, "h", 7, "T"⟩], [], fun _ _ => none, 100000000,
    fun _ _ => .error "na"⟩

/-- C2: the claim says the outbound delta is folded over
`(LastOutCheckId, source-transfer max id]`.  The code instead bounds the
outbound query by `LastInCheckId` and the destination stream's high-water
mark (line 282 passes `statistic.LastInCheckId, nowInId`).  Concretely: the
source stream holds a transfer with id 5 inside the claimed range `(0, 5]`,
whose aggregate is `(7, 1)`, yet the row body folds nothing — the query over
`(20, 20]` is empty — while still advancing `LastOutCheckId` to 5, so the
record is permanently skipped. -/
theorem out_delta_uses_in_checkpoint :
    maxTransferId c2Env.dst = 20 ∧
    maxTransferId c2Env.src = 5 ∧
    calcOutTokenStatistics c2Env.src c2Stat.chainId c2Stat.hash c2Stat.lastOutCheckId
        (maxTransferId c2Env.src) = some ⟨7, 1⟩ ∧
    calcOutTokenStatistics c2Env.src c2Stat.chainId c2Stat.hash c2Stat.lastInCheckId
        (maxTransferId c2Env.dst) = none ∧
    (tokenStatisticRowBody c2Env 20 5 c2Token c2Stat).outCounter = 0 ∧
    (tokenStatisticRowBody c2Env 20 5 c2Token c2Stat).outAmount = 0 ∧
    (tokenStatisticRowBody c2Env 20 5 c2Token c2Stat).lastOutCheckId = 5 := by
  decide

/-! ### C5 — home-chain inbound amount from the live balance -/

theorem tokenRowInValuation_inAmount (env : TokenPassEnv) (token : Token)
    (s : TokenStatistic) : (tokenRowInValuation env token s).inAmount = s.inAmount := rfl

theorem tokenRowOutPhase_inAmount (env : TokenPassEnv) (nowInId : Nat) (token : Token)
    (s : TokenStatistic) : (tokenRowOutPhase env nowInId token s).inAmount = s.inAmount := by
  rw [tokenRowOutPhase]
  cases calcOutTokenStatistics env.src s.chainId s.hash s.lastInCheckId nowInId with
  | none => rfl
  | some r =>
    dsimp only
    split <;> rfl

theorem tokenRowCheckpoints_inAmount (nowInId nowOutId : Nat) (s : TokenStatistic) :
    (tokenRowCheckpoints nowInId nowOutId s).inAmount = s.inAmount := rfl

/-- C5: in the token-statistics row body, a row on the token's home chain
(`token.TokenBasic.ChainId == statistic.ChainId`) takes its stored inbound
amount from the live balance read, scaled by the token's precision (and the
store scale 100) — overwriting, not using any ledger delta — while a row on
any other chain adds the ledger delta of `(LastInCheckId, nowInId]` from the
destination stream. -/
theorem home_chain_in_from_balance :
    ∀ (env : TokenPassEnv) (nowInId nowOutId : Nat) (token : Token) (s : TokenStatistic),
    (token.tokenBasic.chainId = s.chainId →
      ∀ b : ℤ, env.balanceResult s.chainId s.hash = .ok b →
        (tokenStatisticRowBody env nowInId nowOutId token s).inAmount =
          decBigInt ((b : Dec) / pow10q token.precision * 100)) ∧
    (token.tokenBasic.chainId ≠ s.chainId →
      (tokenStatisticRowBody env nowInId nowOutId token s).inAmount =
        match calcInTokenStatistics env.dst s.chainId s.hash s.lastInCheckId nowInId with
        | none => s.inAmount
        | some r => s.inAmount + decBigInt ((r.amount : Dec) / pow10q token.precision * 100)) := by
  intro env nowInId nowOutId token s
  constructor
  · intro hc b hb
    simp only [tokenStatisticRowBody, tokenRowCheckpoints_inAmount,
      tokenRowOutPhase_inAmount, tokenRowInValuation_inAmount]
    simp [tokenRowInPhase, hc, hb]
  · intro hc
    simp only [tokenStatisticRowBody, tokenRowCheckpoints_inAmount,
      tokenRowOutPhase_inAmount, tokenRowInValuation_inAmount]
    rw [tokenRowInPhase, if_neg hc]
    cases hx : calcInTokenStatistics env.dst s.chainId s.hash s.lastInCheckId nowInId with
    | none => simp [hx]
    | some r => simp [hx, addDecimalBigInt, addDecimalInt64]

/-- Concrete inputs for the C5 witness. -/
def c5Basic : TokenBasic := ⟨"W", 3, 100000000, 2, 0, 0⟩

def c5Token : Token := ⟨3, "w", 2, 0, 0, "W", c5Basic⟩

def c5Stat : TokenStatistic := ⟨3, "w", 1, 1, 1, 1, 1, 1, 1, 1, 0, 0⟩

def c5StatAway : TokenStatistic := ⟨4, "w", 1, 1, 1, 1, 1, 1, 1, 1, 0, 0⟩

def c5Env : TokenPassEnv :=
  ⟨[⟨2, 4, "w", 300, "W"⟩], [], [], fun _ _ => none, 100000000, fun _ _ => .ok 12345⟩

/-- C5 witness: a concrete home-chain row takes the scaled live balance, a
concrete away-chain row adds the ledger delta. -/
theorem home_chain_in_from_balance_witness :
    (tokenStatisticRowBody c5Env 9 9 c5Token c5Stat).inAmount =
      decBigInt ((12345 : Dec) / pow10q 2 * 100) ∧
    (tokenStatisticRowBody c5Env 9 9 c5Token c5StatAway).inAmount =
      c5StatAway.inAmount + decBigInt ((300 : Dec) / pow10q 2 * 100) := by
  constructor
  · exact (home_chain_in_from_balance c5Env 9 9 c5Token c5Stat).1 rfl 12345 rfl
  · have h := (home_chain_in_from_balance c5Env 9 9 c5Token c5StatAway).2 (by decide)
    rw [h]
    have hx : calcInTokenStatistics c5Env.dst c5StatAway.chainId c5StatAway.hash
        c5StatAway.lastInCheckId 9 = some ⟨300, 1⟩ := by decide
    rw [hx]
    decide

/-! ### C6 — the relay chain's separate counter -/

/-- C6: the relay chain's own row is updated from the separate relay-stream
counter: the first relay row gets `CalculatePolyChainStatistic` over
`(LastInCheckId, polyCheckId]` — bounded by the relay stream's high-water
mark — added to BOTH its In and Out totals, with both checkpoints set to
that mark; the source/destination folds leave relay rows untouched; the
counter over an empty range `(a, a]` is zero; hence when the relay mark
equals the row's `LastInCheckId` the totals and `LastInCheckId` are
unchanged. -/
theorem relay_chain_separate_counter :
    (∀ (poly : List LedgerRecord) (polyCheckId : Nat) (cs : ChainStatistic)
        (rest : List ChainStatistic), cs.chainId = POLY_CROSSCHAIN_ID →
      polyRowUpdateFirst poly polyCheckId (cs :: rest) =
        { cs with
          In := addDecimalInt64
            (calculatePolyChainStatistic poly cs.lastInCheckId polyCheckId) cs.In,
          Out := addDecimalInt64
            (calculatePolyChainStatistic poly cs.lastInCheckId polyCheckId) cs.Out,
          lastInCheckId := polyCheckId, lastOutCheckId := polyCheckId } :: rest) ∧
    (∀ (ins outs : List ChainStatistic) (nowInId nowOutId : Nat) (cs : ChainStatistic),
      cs.chainId = POLY_CROSSCHAIN_ID →
      chainRowFold ins outs nowInId nowOutId cs = cs) ∧
    (∀ (poly : List LedgerRecord) (a : Nat), calculatePolyChainStatistic poly a a = 0) ∧
    (∀ (poly : List LedgerRecord) (cs : ChainStatistic) (rest : List ChainStatistic),
      cs.chainId = POLY_CROSSCHAIN_ID →
      polyRowUpdateFirst poly cs.lastInCheckId (cs :: rest) =
        { cs with lastOutCheckId := cs.lastInCheckId } :: rest) := by
  have hupd : ∀ (poly : List LedgerRecord) (polyCheckId : Nat) (cs : ChainStatistic)
      (rest : List ChainStatistic), cs.chainId = POLY_CROSSCHAIN_ID →
      polyRowUpdateFirst poly polyCheckId (cs :: rest) =
        { cs with
          In := addDecimalInt64
            (calculatePolyChainStatistic poly cs.lastInCheckId polyCheckId) cs.In,
          Out := addDecimalInt64
            (calculatePolyChainStatistic poly cs.lastInCheckId polyCheckId) cs.Out,
          lastInCheckId := polyCheckId, lastOutCheckId := polyCheckId } :: rest := by
    intro poly polyCheckId cs rest h
    simp [polyRowUpdateFirst, h]
  have hzero : ∀ (poly : List LedgerRecord) (a : Nat),
      calculatePolyChainStatistic poly a a = 0 := by
    intro poly a
    have hp : ∀ r : LedgerRecord, decide (a < r.id ∧ r.id ≤ a) = false := by
      intro r
      simp only [decide_eq_false_iff_not, not_and, not_le]
      omega
    simp [calculatePolyChainStatistic, hp]
  refine ⟨hupd, ?_, hzero, ?_⟩
  · intro ins outs nowInId nowOutId cs h
    have hin : ins.find? (chainMatch cs) = none := by
      rw [List.find?_eq_none]
      intro x _
      simp [chainMatch, h]
    have hout : outs.find? (chainMatch cs) = none := by
      rw [List.find?_eq_none]
      intro x _
      simp [chainMatch, h]
    rw [chainRowFold, hin]
    rw [hout]
    rw [if_neg (by simp [h])]
  · intro poly cs rest h
    rw [hupd poly cs.lastInCheckId cs rest h, hzero]
    simp [addDecimalInt64]

/-- Concrete inputs for the C6 witness: the relay row's checkpoint already
at the relay stream's high-water mark 3. -/
def c6Row : ChainStatistic := ⟨POLY_CROSSCHAIN_ID, 5, 6, 0, 3, 3⟩

/-- C6 witness: with relay mark 3 equal to `LastInCheckId`, totals and
`LastInCheckId` stay put, and the src/dst folds do not touch the relay row. -/
theorem relay_chain_separate_counter_witness :
    polyRowUpdateFirst [⟨3, 0⟩] 3 [c6Row] = [{ c6Row with lastOutCheckId := 3 }] ∧
    chainRowFold [⟨2, 1, 0, 0, 9, 9⟩] [] 9 9 c6Row = c6Row := by
  exact ⟨relay_chain_separate_counter.2.2.2 [⟨3, 0⟩] c6Row [] rfl,
    relay_chain_separate_counter.2.1 [⟨2, 1, 0, 0, 9, 9⟩] [] 9 9 c6Row rfl⟩

/-! ### C1 — no-op passes when the high-water marks equal the checkpoints -/

theorem tokenStatLoop_all_some (f : Nat → String → Option Token)
    (saved rows : List TokenStatistic)
    (h : ∀ s ∈ rows, (f s.chainId s.hash).isSome = true) :
    tokenStatLoop f saved rows = some saved := by
  induction rows with
  | nil => rfl
  | cons s rest ih =>
    cases hx : f s.chainId s.hash with
    | none =>
      have := h s (List.mem_cons_self s rest)
      rw [hx] at this
      simp at this
    | some t =>
      simp only [tokenStatLoop, hx]
      exact ih fun r hr => h r (List.mem_cons_of_mem s hr)

theorem calculateAssets_empty_range (env : AssetPassEnv) (name : String) (a : Nat) :
    calculateAssets env name a a = [] := by
  have hp : ∀ r : TransferRecord,
      decide (r.basicName = name ∧ a < r.id ∧ r.id ≤ a) = false := by
    intro r
    simp only [decide_eq_false_iff_not, not_and]
    intro _ h1 h2
    omega
  simp [calculateAssets, hp]

theorem assetRowUpdate_noop (env : AssetPassEnv) (nowId : Nat) (old : AssetStatistic)
    (h : old.lastCheckId = nowId) : assetRowUpdate env nowId old = old := by
  subst h
  simp [assetRowUpdate, calculateAssets_empty_range]

theorem assetStatLoop_noop (env : AssetPassEnv) (nowId : Nat) (saveFails : String → Bool)
    (rows : List AssetStatistic)
    (hupd : ∀ r ∈ rows, assetRowUpdate env nowId r = r)
    (hsf : ∀ n, saveFails n = false) :
    assetStatLoop env nowId saveFails rows = (rows, none) := by
  induction rows with
  | nil => rfl
  | cons r rest ih =>
    have hr := hupd r (List.mem_cons_self r rest)
    simp only [assetStatLoop, hr, hsf, Bool.false_eq_true, if_false]
    rw [ih fun x hx => hupd x (List.mem_cons_of_mem r hx)]

/-- C1: when the ledger high-water marks equal the stored checkpoints and
the statistic sets already cover the catalog, each pass leaves every
checkpoint cursor and every accumulated total unchanged, and running the
pass twice gives the same unchanged state.  (For the token pass the
no-update behaviour holds for a stronger reason: the inverted lookup check
skips every row whose catalog lookup succeeds — see C3.) -/
theorem noop_when_no_new_records :
    ∀ (tEnv : TokenPassEnv) (tDb : List TokenStatistic)
      (cEnv : ChainPassEnv) (cDb : List ChainStatistic)
      (aEnv : AssetPassEnv) (aDb : List AssetStatistic) (saveFails : String → Bool),
    (∀ s ∈ tDb ++ freshTokenRows tEnv.tokens tDb,
      (tEnv.lookupFn s.chainId s.hash).isSome = true) →
    (getNewChainSta cDb).lastInCheckId = maxLedgerId cEnv.dstTransactions →
    (getNewChainSta cDb).lastOutCheckId = maxLedgerId cEnv.srcTransactions →
    (∀ r ∈ aDb, r.lastCheckId = maxTransferId aEnv.srcTransfers) →
    freshAssetRows aEnv.basics aDb = [] →
    (∀ n, saveFails n = false) →
    computeTokenStatisticsPass tEnv tDb = some tDb ∧
    (computeTokenStatisticsPass tEnv tDb).bind (computeTokenStatisticsPass tEnv) =
      some tDb ∧
    computeChainStatisticsPass cEnv cDb = cDb ∧
    computeChainStatisticsPass cEnv (computeChainStatisticsPass cEnv cDb) = cDb ∧
    (computeAssetStatisticsPass aEnv saveFails aDb).1 = aDb ∧
    (computeAssetStatisticsPass aEnv saveFails aDb).2 = none ∧
    (computeAssetStatisticsPass aEnv saveFails
      (computeAssetStatisticsPass aEnv saveFails aDb).1).1 = aDb := by
  intro tEnv tDb cEnv cDb aEnv aDb saveFails h1 h2 h3 h4 h5 h6
  have t1 : computeTokenStatisticsPass tEnv tDb = some tDb := by
    unfold computeTokenStatisticsPass
    exact tokenStatLoop_all_some _ _ _ h1
  have c1 : computeChainStatisticsPass cEnv cDb = cDb := by
    simp only [computeChainStatisticsPass]
    rw [h2, h3]
    simp
  have akey : assetStatLoop aEnv (maxTransferId aEnv.srcTransfers) saveFails aDb =
      (aDb, none) := by
    refine assetStatLoop_noop _ _ _ _ (fun r hr => ?_) h6
    exact assetRowUpdate_noop _ _ _ (h4 r hr)
  have a1 : computeAssetStatisticsPass aEnv saveFails aDb = (aDb, none) := by
    simp only [computeAssetStatisticsPass, h5, List.append_nil]
    exact akey
  refine ⟨t1, ?_, c1, ?_, ?_, ?_, ?_⟩
  · rw [t1]
    simpa using t1
  · rw [c1]
    exact c1
  · rw [a1]
  · rw [a1]
  · rw [a1]
    rw [a1]

/-- Concrete inputs for the C1 witness. -/
def c1TokW : Token := ⟨1, "a", 0, 0, 0, "A", ⟨"A", 1, 1, 0, 0, 0⟩⟩

def c1TDb : List TokenStatistic := [⟨1, "a", 0, 0, 0, 0, 0, 0, 0, 0, 0, 0⟩]

def c1TEnv : TokenPassEnv := ⟨[], [], [], fun _ _ => some c1TokW, 1, fun _ _ => .error "e"⟩

def c1CDb : List ChainStatistic := [⟨2, 3, 4, 0, 0, 0⟩]

def c1CEnv : ChainPassEnv := ⟨[], [], [], [2]⟩

def c1ADb : List AssetStatistic := [⟨"A", 0, 0, 0, 0, 0, 0⟩]

def c1AEnv : AssetPassEnv := ⟨[], [⟨"A", 1, 1, 0, 0, 0⟩], 1⟩

/-- C1 witness: with empty deltas over concrete states, every pass returns
the stored state unchanged. -/
theorem noop_when_no_new_records_witness :
    computeTokenStatisticsPass c1TEnv c1TDb = some c1TDb ∧
    computeChainStatisticsPass c1CEnv c1CDb = c1CDb ∧
    (computeAssetStatisticsPass c1AEnv (fun _ => false) c1ADb).1 = c1ADb := by
  have h := noop_when_no_new_records c1TEnv c1TDb c1CEnv c1CDb c1AEnv c1ADb
    (fun _ => false) (by decide) (by decide) (by decide) (by decide) (by decide)
    (fun _ => rfl)
  exact ⟨h.1, h.2.2.1, h.2.2.2.2.1⟩

/-! ### C4 — a save error aborts the rest of the pass -/

/-- Concrete inputs exhibiting the abort-on-save-error behaviour. -/
def c4Env : AssetPassEnv := ⟨[⟨5, 2, "h", 10, "A"⟩], [], 100000000⟩

def c4RowA : AssetStatistic := ⟨"A", 0, 0, 0, 0, 0, 0⟩

def c4RowB : AssetStatistic := ⟨"B", 0, 0, 0, 0, 0, 0⟩

def c4SaveFails : String → Bool := fun n => n == "A"

def c4Db : List AssetStatistic := [c4RowA, c4RowB]

/-- C4 counterexample: the claim says a save failure on one row does not
prevent the remaining rows from being saved.  At this concrete state the
save of row "A" fails, `computeAssetStatistics` returns the error
immediately, and row "B" — whose own save would have succeeded and whose
updated value differs from its stored value — is left unsaved. -/
theorem save_error_aborts_pass_counterexample :
    (computeAssetStatisticsPass c4Env c4SaveFails c4Db).1 = c4Db ∧
    (computeAssetStatisticsPass c4Env c4SaveFails c4Db).2 =
      some "Failed to UpdateTransferStatistic" ∧
    assetRowUpdate c4Env (maxTransferId c4Env.srcTransfers) c4RowB ≠ c4RowB ∧
    c4SaveFails
      (assetRowUpdate c4Env (maxTransferId c4Env.srcTransfers) c4RowB).tokenBasicName =
      false := by
  decide

/-- C4 (amended): a persistence error while saving one statistic row aborts
the remainder of the pass — the error is returned, and the failing row and
every later row keep their stored values (to be reprocessed on the next
tick); only when every save succeeds is each row saved with its updated
value. -/
theorem save_error_aborts_pass :
    (∀ (env : AssetPassEnv) (nowId : Nat) (saveFails : String → Bool)
        (old : AssetStatistic) (rest : List AssetStatistic),
      saveFails ((assetRowUpdate env nowId old).tokenBasicName) = true →
      assetStatLoop env nowId saveFails (old :: rest) =
        (old :: rest, some "Failed to UpdateTransferStatistic")) ∧
    (∀ (env : AssetPassEnv) (nowId : Nat) (saveFails : String → Bool)
        (rows : List AssetStatistic),
      (∀ r ∈ rows, saveFails ((assetRowUpdate env nowId r).tokenBasicName) = false) →
      assetStatLoop env nowId saveFails rows =
        (rows.map (assetRowUpdate env nowId), none)) := by
  constructor
  · intro env nowId saveFails old rest h
    simp [assetStatLoop, h]
  · intro env nowId saveFails rows h
    induction rows with
    | nil => rfl
    | cons r rest ih =>
      have hr := h r (List.mem_cons_self r rest)
      simp only [assetStatLoop, hr, Bool.false_eq_true, if_false, List.map_cons]
      rw [ih fun x hx => h x (List.mem_cons_of_mem r hx)]

/-- C4 witness: the abort at the concrete failing state, and the all-saves
case over one concrete row. -/
theorem save_error_aborts_pass_witness :
    assetStatLoop c4Env 5 c4SaveFails [c4RowA, c4RowB] =
      ([c4RowA, c4RowB], some "Failed to UpdateTransferStatistic") ∧
    assetStatLoop c4Env 5 (fun _ => false) [c4RowB] =
      ([assetRowUpdate c4Env 5 c4RowB], none) := by
  exact ⟨save_error_aborts_pass.1 c4Env 5 c4SaveFails c4RowA [c4RowB] (by decide),
    save_error_aborts_pass.2 c4Env 5 (fun _ => false) [c4RowB] (fun r _ => rfl)⟩

/-! ### C8 — alert condition -/

theorem buildChainAsset_flow (env : ReconEnv) (basic : TokenBasic) (t : Token) :
    (buildChainAsset env basic t).1.flow =
      (buildChainAsset env basic t).1.totalSupply -
        (buildChainAsset env basic t).1.balance := rfl

theorem foldl_addDecimalBigInt_zero (l : List ℤ) (a : ℤ) (h : ∀ x ∈ l, x = 0) :
    l.foldl addDecimalBigInt a = a := by
  induction l generalizing a with
  | nil => rfl
  | cons x rest ih =>
    have hx := h x (List.mem_cons_self x rest)
    simp only [List.foldl_cons, hx, addDecimalBigInt, add_zero]
    exact ih a fun y hy => h y (List.mem_cons_of_mem x hy)

theorem sendDingFlag_eq_any (details : List AssetDetail) :
    sendDingFlag details = details.any fun d =>
      !(d.reason == "all node is not working") &&
        (decide (0 < d.difference) && decide (10000 < d.amountUsd)) := by
  have key : ∀ (l : List AssetDetail) (b : Bool),
      l.foldl (fun flag d =>
        if d.reason == "all node is not working" then flag
        else if decide (0 < d.difference) && decide (10000 < d.amountUsd) then true
        else flag) b =
      (b || l.any fun d => !(d.reason == "all node is not working") &&
        (decide (0 < d.difference) && decide (10000 < d.amountUsd))) := by
    intro l
    induction l with
    | nil => intro b; simp
    | cons d rest ih =>
      intro b
      rw [List.foldl_cons, ih, List.any_cons]
      cases hr : d.reason == "all node is not working" with
      | true => simp [hr]
      | false =>
        cases hc : decide (0 < d.difference) && decide (10000 < d.amountUsd) with
        | true => simp [hr, hc]
        | false => simp [hr, hc]
  rw [sendDingFlag, key]
  simp

/-- C8 counterexample: the claim says the alert fires if and only if some
non-excluded asset has positive aggregate difference valued above $10,000.
At this concrete state — a DAO token whose balance reads all fail with
"all node is not working" while the override supplies a positive total
supply — the right-data detail has difference 1000 and USD value 100000,
yet `sendDing` skips it because of its recorded reason and posts nothing. -/
theorem alert_reason_filter_counterexample :
    (startCheckAssetAlarm
        ⟨fun _ _ _ => .error "all node is not working", fun _ _ _ => .ok 0, none, none⟩
        [(⟨"DAO", 7, 10000000000, 0, 0, 1⟩,
          [⟨2, "0xd", 0, 0, 1, "DAO", ⟨"DAO", 7, 10000000000, 0, 0, 1⟩⟩])]).1 = false ∧
    ((startCheckAssetAlarm
        ⟨fun _ _ _ => .error "all node is not working", fun _ _ _ => .ok 0, none, none⟩
        [(⟨"DAO", 7, 10000000000, 0, 0, 1⟩,
          [⟨2, "0xd", 0, 0, 1, "DAO", ⟨"DAO", 7, 10000000000, 0, 0, 1⟩⟩])]).2.1.any
      fun d => decide (0 < d.difference) && decide (10000 < d.amountUsd) &&
        !inExtraBasic d.basicName) = true := by
  decide

/-- C8 (amended): the alert is posted if and only if some detail of the
non-excluded (right-data) list has a recorded reason other than
"all node is not working", a positive aggregate difference, AND a stored
USD valuation strictly above 10000; the aggregate difference is the sum of
the per-entry flows `totalSupply - balance`, so an asset whose entries all
have `totalSupply = balance` contributes zero difference and never fires. -/
theorem alert_iff_material_difference :
    (∀ details : List AssetDetail, sendDingFlag details = true ↔
      ∃ d ∈ details, d.reason ≠ "all node is not working" ∧
        0 < d.difference ∧ 10000 < d.amountUsd) ∧
    (∀ (env : ReconEnv) (basic : TokenBasic) (tokens : List Token),
      (∀ t ∈ eligibleTokens tokens,
        (buildChainAsset env basic t).1.totalSupply =
          (buildChainAsset env basic t).1.balance) →
      (buildAssetDetail env basic tokens).difference = 0) ∧
    (∀ (env : ReconEnv) (basic : TokenBasic) (t : Token),
      (buildChainAsset env basic t).1.flow =
        (buildChainAsset env basic t).1.totalSupply -
          (buildChainAsset env basic t).1.balance) := by
  refine ⟨?_, ?_, buildChainAsset_flow⟩
  · intro details
    rw [sendDingFlag_eq_any, List.any_eq_true]
    constructor
    · rintro ⟨d, hd, hp⟩
      simp only [Bool.and_eq_true, Bool.not_eq_true', beq_eq_false_iff_ne,
        decide_eq_true_eq] at hp
      exact ⟨d, hd, hp.1, hp.2.1, hp.2.2⟩
    · rintro ⟨d, hd, hr, h1, h2⟩
      refine ⟨d, hd, ?_⟩
      simp only [Bool.and_eq_true, Bool.not_eq_true', beq_eq_false_iff_ne,
        decide_eq_true_eq]
      exact ⟨hr, h1, h2⟩
  · intro env basic tokens h
    simp only [buildAssetDetail]
    refine foldl_addDecimalBigInt_zero _ _ fun x hx => ?_
    simp only [List.map_map, List.mem_map, Function.comp] at hx
    obtain ⟨t, ht, rfl⟩ := hx
    rw [buildChainAsset_flow, h t ht, sub_self]

/-- Concrete inputs for the C8 witness: a balanced asset and a qualifying
detail. -/
def c8BalBasic : TokenBasic := ⟨"Q", 7, 1, 0, 0, 1⟩

def c8BalToken : Token := ⟨5, "q", 0, 0, 1, "Q", c8BalBasic⟩

def c8BalEnv : ReconEnv := ⟨fun _ _ _ => .ok 4, fun _ _ _ => .ok 4, none, none⟩

def c8HotDetail : AssetDetail := ⟨"Z", [], 5, 0, 0, 20000, ""⟩

/-- C8 witness: the fully-balanced concrete asset yields difference 0, and
a concrete qualifying detail makes the alert fire. -/
theorem alert_iff_material_difference_witness :
    (buildAssetDetail c8BalEnv c8BalBasic [c8BalToken]).difference = 0 ∧
    sendDingFlag [c8HotDetail] = true := by
  constructor
  · exact alert_iff_material_difference.2.1 c8BalEnv c8BalBasic [c8BalToken]
      (by decide)
  · exact (alert_iff_material_difference.1 [c8HotDetail]).mpr
      ⟨c8HotDetail, List.mem_singleton.mpr rfl, by decide, by decide, by decide⟩

end PolyBridge
